import Mathlib

/-!
Shallow embedding of `src/Cloud.py`: a Flask service with a BigQuery-backed
click-tracking table.  The service has two routes:

* `POST /api/v1/track-click` (`track_click`): parses a JSON body, validates
  the presence of five required fields, builds a one-row DataFrame with a
  server-assigned timestamp, and loads it into BigQuery.
* `GET /api/v1/user-clicks/<user_id>` (`get_user_clicks`): runs a
  parameterized aggregate query (GROUP BY tab_name, ORDER BY click_count
  DESC) scoped to one user.

The external BigQuery service is modelled by oracles: the outcome of the
load job is a parameter, and a trace of submitted load jobs / query calls
is returned alongside the HTTP response so that "the client was invoked
exactly once with ..." is a statement about the trace.  The semantics of
the fixed SQL text in the source is translated into `run_user_clicks_query`.
Python exceptions are modelled with `Except PyErr`; the wall clock
(`datetime.utcnow()`) is a `Nat` parameter.
-/

/-- JSON values as returned by Flask's `request.get_json()`.  Python `None`
(from a JSON `null` body) is `Json.null`; objects are association lists. -/
inductive Json where
  | null : Json
  | bool (b : Bool) : Json
  | num (n : Int) : Json
  | str (s : String) : Json
  | arr (elems : List Json) : Json
  | obj (fields : List (String × Json)) : Json

/-- Python exceptions that the handlers can observe, each carrying the
exception text (`str(e)`). -/
inductive PyErr where
  | typeError (msg : String)
  | keyError (msg : String)
  | badRequest (msg : String)
  | sdkError (msg : String)
deriving Repr, DecidableEq

/-- Key lookup in a parsed JSON object (Python `dict` subscript). -/
def objLookup : List (String × Json) → String → Option Json
  | [], _ => none
  | kv :: rest, field => if kv.fst = field then some kv.snd else objLookup rest field

/-- Python's `field in data` for the possible results of `get_json()`:
key membership for a dict, element membership for a list, substring test
for a string, and a `TypeError` for non-container values (`None`, booleans,
numbers are not iterable). -/
def pyContains (data : Json) (field : String) : Except PyErr Bool :=
  match data with
  | .null => .error (.typeError "argument of type NoneType is not iterable")
  | .bool _ => .error (.typeError "argument of type bool is not iterable")
  | .num _ => .error (.typeError "argument of type int is not iterable")
  | .str s => .ok (decide (field.data <:+: s.data))
  | .arr elems =>
    .ok (elems.any (fun e => match e with | .str s => s == field | _ => false))
  | .obj fields => .ok (objLookup fields field).isSome

/-- Python's `data[field]` subscript: dict lookup (raising `KeyError` when
the key is absent) and a `TypeError` on every non-dict value. -/
def pyGetItem (data : Json) (field : String) : Except PyErr Json :=
  match data with
  | .obj fields =>
    match objLookup fields field with
    | some v => .ok v
    | none => .error (.keyError field)
  | .str _ => .error (.typeError "string indices must be integers")
  | _ => .error (.typeError "object is not subscriptable")

/-- The required field list of `validate_click_data` (Cloud.py line 69). -/
def required_fields : List String :=
  ["user_id", "tab_name", "session_id", "app_version", "device_info"]

/-- Python's short-circuiting `all(field in data for field in fields)`:
evaluates `field in data` left to right, stopping at the first `False`
or at the first raised exception. -/
def allFieldsIn (data : Json) : List String → Except PyErr Bool
  | [] => .ok true
  | f :: fs =>
    match pyContains data f with
    | .error e => .error e
    | .ok true => allFieldsIn data fs
    | .ok false => .ok false

/-- `validate_click_data` (Cloud.py lines 67-70): `all(field in data for
field in required_fields)`. -/
def validate_click_data (data : Json) : Except PyErr Bool :=
  allFieldsIn data required_fields

/-- Module-level BigQuery configuration (Cloud.py lines 16-18). -/
def PROJECT_ID : String := "your-project-id"

/-- Dataset identifier constant. -/
def DATASET_ID : String := "analytics_dataset"

/-- Table identifier constant. -/
def TABLE_ID : String := "tab_clicks"

/-- One DataFrame row built by `track_click` (Cloud.py lines 83-90): the
five payload values plus the server-assigned timestamp.  Field values are
arbitrary JSON values because the validator checks only presence. -/
structure Row where
  user_id : Json
  tab_name : Json
  click_timestamp : Nat
  session_id : Json
  app_version : Json
  device_info : Json

/-- One column of a BigQuery load-job schema (`bigquery.SchemaField`). -/
structure SchemaField where
  name : String
  fieldType : String
deriving Repr, DecidableEq

/-- BigQuery write dispositions (`bigquery.WriteDisposition`). -/
inductive WriteDisposition where
  | WRITE_APPEND : WriteDisposition
  | WRITE_TRUNCATE : WriteDisposition
  | WRITE_EMPTY : WriteDisposition
deriving Repr, DecidableEq

/-- A BigQuery `LoadJobConfig` as configured by `load_data`. -/
structure LoadJobConfig where
  write_disposition : WriteDisposition
  schema : List SchemaField
deriving Repr, DecidableEq

/-- The fixed six-column schema of `load_data` (Cloud.py lines 42-49). -/
def click_schema : List SchemaField :=
  [⟨"user_id", "STRING"⟩, ⟨"tab_name", "STRING"⟩, ⟨"click_timestamp", "TIMESTAMP"⟩,
   ⟨"session_id", "STRING"⟩, ⟨"app_version", "STRING"⟩, ⟨"device_info", "STRING"⟩]

/-- The `LoadJobConfig` built by `load_data` (Cloud.py lines 40-50):
append-only write disposition with the fixed six-column schema. -/
def load_job_config : LoadJobConfig := ⟨.WRITE_APPEND, click_schema⟩

/-- The f-string `f"{PROJECT_ID}.{dataset_id}.{table_id}"` of Cloud.py
line 38. -/
def tableRef (dataset_id table_id : String) : String :=
  PROJECT_ID ++ "." ++ dataset_id ++ "." ++ table_id

/-- One load job submitted to BigQuery: the row batch, the destination
table reference and the job configuration. -/
structure LoadJob where
  rows : List Row
  table_ref : String
  job_config : LoadJobConfig

/-- `BigQueryClient.load_data` (Cloud.py lines 35-62).  `jobResult` is the
oracle for the outcome that `load_job.result()` eventually reports; the
second component is the trace of jobs submitted by this call.  The method
awaits `result()` before returning and re-raises the failure after
logging, so its own outcome is exactly the job's final outcome. -/
def load_data (jobResult : List Row → Except PyErr Unit) (data : List Row)
    (dataset_id table_id : String) : Except PyErr Unit × List LoadJob :=
  (jobResult data, [⟨data, tableRef dataset_id table_id, load_job_config⟩])

/-- An HTTP response: status code plus JSON body. -/
structure HttpResp where
  status : Nat
  body : Json

/-- The 400 response of `track_click` (Cloud.py lines 78-80). -/
def respMissingFields : HttpResp :=
  ⟨400, .obj [("error", .str "Missing required fields")]⟩

/-- The catch-all 500 response (Cloud.py lines 102-104 and 138-140). -/
def respInternalError : HttpResp :=
  ⟨500, .obj [("error", .str "Internal server error")]⟩

/-- The 200 response of `track_click` (Cloud.py lines 95-98). -/
def respSuccess : HttpResp :=
  ⟨200, .obj [("status", .str "success"),
              ("message", .str "Click event recorded successfully")]⟩

/-- The dict literal of Cloud.py lines 83-90: evaluates the five subscripts
(each may raise) and pairs them with the server-assigned timestamp. -/
def buildRow (data : Json) (now : Nat) : Except PyErr Row :=
  match pyGetItem data "user_id" with
  | .error e => .error e
  | .ok u =>
    match pyGetItem data "tab_name" with
    | .error e => .error e
    | .ok t =>
      match pyGetItem data "session_id" with
      | .error e => .error e
      | .ok s =>
        match pyGetItem data "app_version" with
        | .error e => .error e
        | .ok a =>
          match pyGetItem data "device_info" with
          | .error e => .error e
          | .ok d => .ok ⟨u, t, now, s, a, d⟩

/-- The `track_click` handler (Cloud.py lines 72-104).  `getJson` is the
result of `request.get_json()` (which raises `BadRequest` on an unparsable
body), `now` the value of `datetime.utcnow()`, `jobResult` the load-job
outcome oracle.  Returns the HTTP response and the trace of load jobs
submitted while handling the request; every raised exception is caught by
the handler's catch-all `except` and turned into the generic 500. -/
def track_click (getJson : Except PyErr Json) (now : Nat)
    (jobResult : List Row → Except PyErr Unit) : HttpResp × List LoadJob :=
  match getJson with
  | .error _ => (respInternalError, [])
  | .ok data =>
    match validate_click_data data with
    | .error _ => (respInternalError, [])
    | .ok false => (respMissingFields, [])
    | .ok true =>
      match buildRow data now with
      | .error _ => (respInternalError, [])
      | .ok row =>
        let r := load_data jobResult [row] DATASET_ID TABLE_ID
        match r.fst with
        | .error _ => (respInternalError, r.snd)
        | .ok _ => (respSuccess, r.snd)

/-- The fixed SQL text of `get_user_clicks` (Cloud.py lines 109-115),
with the f-string interpolating only the module constants, never the
`user_id` argument. -/
def user_clicks_query : String :=
  "SELECT tab_name, COUNT(*) as click_count FROM `" ++ PROJECT_ID ++ "." ++
    DATASET_ID ++ "." ++ TABLE_ID ++
    "` WHERE user_id = @user_id GROUP BY tab_name ORDER BY click_count DESC"

/-- A persisted row of the warehouse table, typed by the six-column
schema (all STRING except the TIMESTAMP column). -/
structure TableRow where
  user_id : String
  tab_name : String
  click_timestamp : Nat
  session_id : String
  app_version : String
  device_info : String
deriving Repr, DecidableEq

/-- Ordering used by `ORDER BY click_count DESC`: descending click count. -/
def geCount (a b : String × Nat) : Prop := b.snd ≤ a.snd

instance : DecidableRel geCount := fun a b => Nat.decLe b.snd a.snd

instance : IsTotal (String × Nat) geCount := ⟨fun a b => Nat.le_total b.snd a.snd⟩

instance : IsTrans (String × Nat) geCount := ⟨fun _ _ _ h1 h2 => Nat.le_trans h2 h1⟩

/-- `WHERE user_id = @user_id`: rows of the table scoped to one user. -/
def whereUser (t : List TableRow) (uid : String) : List TableRow :=
  t.filter (fun r => r.user_id == uid)

/-- The distinct `tab_name` groups of `GROUP BY tab_name`. -/
def tabNames (rows : List TableRow) : List String :=
  (rows.map (fun r => r.tab_name)).dedup

/-- `SELECT tab_name, COUNT(*) as click_count ... GROUP BY tab_name`:
one `(tab_name, click_count)` pair per distinct tab name. -/
def groupCounts (rows : List TableRow) : List (String × Nat) :=
  (tabNames rows).map (fun tb => (tb, (rows.filter (fun r => r.tab_name == tb)).length))

/-- Semantics of the full query of `get_user_clicks`, translated from the
SQL text: filter to the user, group by tab name, count, order by count
descending (ties in unspecified order, here the sort's order). -/
def run_user_clicks_query (t : List TableRow) (uid : String) : List (String × Nat) :=
  List.insertionSort geCount (groupCounts (whereUser t uid))

/-- A `bigquery.ScalarQueryParameter`: name, type and bound value. -/
structure QueryParam where
  name : String
  paramType : String
  value : String
deriving Repr, DecidableEq

/-- One query call sent to the warehouse: the SQL text and the bound
typed parameters of its `QueryJobConfig`. -/
structure QueryCall where
  sql : String
  params : List QueryParam
deriving Repr, DecidableEq

/-- The `click_stats` list comprehension of Cloud.py lines 126-129,
rendered as the JSON array of the response. -/
def clickStatsJson (stats : List (String × Nat)) : Json :=
  .arr (stats.map (fun p =>
    .obj [("tab_name", .str p.fst), ("click_count", .num (Int.ofNat p.snd))]))

/-- The `get_user_clicks` handler (Cloud.py lines 106-140).  `table` is the
warehouse table contents the query runs over; `queryFailure` is `some e`
when the query job raises `e`.  Returns the HTTP response and the trace of
query calls sent to the warehouse. -/
def get_user_clicks (table : List TableRow) (queryFailure : Option PyErr)
    (user_id : String) : HttpResp × List QueryCall :=
  let call : QueryCall := ⟨user_clicks_query, [⟨"user_id", "STRING", user_id⟩]⟩
  match queryFailure with
  | some _ => (respInternalError, [call])
  | none =>
    (⟨200, .obj [("user_id", .str user_id),
        ("click_statistics", clickStatsJson (run_user_clicks_query table user_id))]⟩,
     [call])

/-- One ingest request in a sequential run: the parsed body and the
load-job outcome oracle for that request. -/
structure IngestReq where
  getJson : Except PyErr Json
  jobResult : List Row → Except PyErr Unit

/-- Sequential handling of a list of ingest requests, one after another:
the i-th call reads the clock at its own call time `clock i`. -/
def seqTrack (clock : Nat → Nat) (reqs : List IngestReq) (i : Fin reqs.length) :
    HttpResp × List LoadJob :=
  track_click (reqs.get i).getJson (clock i.val) (reqs.get i).jobResult

/-- All server-assigned timestamps occurring in the load jobs submitted by
one handled request. -/
def jobTimestamps (out : HttpResp × List LoadJob) : List Nat :=
  (out.snd.map (fun jb => jb.rows.map Row.click_timestamp)).flatten

/-- A sample valid payload (the spec's scenario), used to exhibit concrete
runs of the handlers. -/
def demoKvs : List (String × Json) :=
  [("user_id", .str "u1"), ("tab_name", .str "Home"), ("session_id", .str "s1"),
   ("app_version", .str "1.0"), ("device_info", .str "iPhone14")]

/-- The sample payload with one extra key appended. -/
def demoKvsExtra : List (String × Json) := demoKvs ++ [("extra", .num 42)]

/-- The row built from the sample payload at clock value `now`. -/
def demoRow (now : Nat) : Row :=
  ⟨.str "u1", .str "Home", now, .str "s1", .str "1.0", .str "iPhone14"⟩

/-- Two sequential valid ingest requests whose load jobs succeed. -/
def demoReqs : List IngestReq :=
  [⟨.ok (.obj demoKvs), fun _ => .ok ()⟩, ⟨.ok (.obj demoKvs), fun _ => .ok ()⟩]

/-! ## Helper lemmas -/

/-- On a parsed JSON object the short-circuiting `all` never raises and
computes exactly the conjunction of key-presence checks. -/
theorem allFieldsIn_obj (kvs : List (String × Json)) (fs : List String) :
    allFieldsIn (.obj kvs) fs = .ok (fs.all fun f => (objLookup kvs f).isSome) := by
  induction fs with
  | nil => rfl
  | cons f fs ih =>
    simp only [allFieldsIn, pyContains, List.all_cons]
    cases h : (objLookup kvs f).isSome with
    | false => rfl
    | true => exact ih

/-- Evaluating the DataFrame dict literal on an object having the five
required keys. -/
theorem buildRow_obj (kvs : List (String × Json)) (now : Nat) (u t s a d : Json)
    (hu : objLookup kvs "user_id" = some u)
    (ht : objLookup kvs "tab_name" = some t)
    (hs : objLookup kvs "session_id" = some s)
    (ha : objLookup kvs "app_version" = some a)
    (hd : objLookup kvs "device_info" = some d) :
    buildRow (.obj kvs) now = .ok ⟨u, t, now, s, a, d⟩ := by
  simp only [buildRow, pyGetItem, hu, ht, hs, ha, hd]

/-- A payload object with all five required keys passes validation. -/
theorem validate_obj_true (kvs : List (String × Json)) (u t s a d : Json)
    (hu : objLookup kvs "user_id" = some u)
    (ht : objLookup kvs "tab_name" = some t)
    (hs : objLookup kvs "session_id" = some s)
    (ha : objLookup kvs "app_version" = some a)
    (hd : objLookup kvs "device_info" = some d) :
    validate_click_data (.obj kvs) = .ok true := by
  simp [validate_click_data, allFieldsIn_obj, required_fields, hu, ht, hs, ha, hd]

/-- Full evaluation of `track_click` on a valid object payload whose load
job succeeds. -/
theorem track_click_obj_ok (kvs : List (String × Json)) (now : Nat)
    (jr : List Row → Except PyErr Unit) (u t s a d : Json)
    (hu : objLookup kvs "user_id" = some u)
    (ht : objLookup kvs "tab_name" = some t)
    (hs : objLookup kvs "session_id" = some s)
    (ha : objLookup kvs "app_version" = some a)
    (hd : objLookup kvs "device_info" = some d)
    (hok : jr [⟨u, t, now, s, a, d⟩] = .ok ()) :
    track_click (.ok (.obj kvs)) now jr =
      (respSuccess,
       [⟨[⟨u, t, now, s, a, d⟩], tableRef DATASET_ID TABLE_ID, load_job_config⟩]) := by
  have hv := validate_obj_true kvs u t s a d hu ht hs ha hd
  have hb := buildRow_obj kvs now u t s a d hu ht hs ha hd
  simp [track_click, hv, hb, load_data, hok]

/-- Full evaluation of `track_click` on a valid object payload whose load
job raises. -/
theorem track_click_obj_err (kvs : List (String × Json)) (now : Nat)
    (jr : List Row → Except PyErr Unit) (u t s a d : Json) (e : PyErr)
    (hu : objLookup kvs "user_id" = some u)
    (ht : objLookup kvs "tab_name" = some t)
    (hs : objLookup kvs "session_id" = some s)
    (ha : objLookup kvs "app_version" = some a)
    (hd : objLookup kvs "device_info" = some d)
    (herr : jr [⟨u, t, now, s, a, d⟩] = .error e) :
    track_click (.ok (.obj kvs)) now jr =
      (respInternalError,
       [⟨[⟨u, t, now, s, a, d⟩], tableRef DATASET_ID TABLE_ID, load_job_config⟩]) := by
  have hv := validate_obj_true kvs u t s a d hu ht hs ha hd
  have hb := buildRow_obj kvs now u t s a d hu ht hs ha hd
  simp [track_click, hv, hb, load_data, herr]

/-- A successfully built row carries the clock value read by the call as
its timestamp. -/
theorem buildRow_ts (data : Json) (now : Nat) (row : Row)
    (h : buildRow data now = .ok row) : row.click_timestamp = now := by
  unfold buildRow at h
  repeat' split at h
  any_goals cases h
  all_goals rfl

/-- Every timestamp in the load jobs submitted by one `track_click` call is
the clock value read by that call. -/
theorem track_click_ts (g : Except PyErr Json) (now : Nat)
    (jr : List Row → Except PyErr Unit) :
    ∀ ts ∈ jobTimestamps (track_click g now jr), ts = now := by
  intro ts hts
  cases g with
  | error e => simp [track_click, jobTimestamps] at hts
  | ok data =>
    cases hv : validate_click_data data with
    | error e => simp [track_click, hv, jobTimestamps] at hts
    | ok b =>
      cases b with
      | false => simp [track_click, hv, jobTimestamps] at hts
      | true =>
        cases hb : buildRow data now with
        | error e => simp [track_click, hv, hb, jobTimestamps] at hts
        | ok row =>
          have hrow := buildRow_ts data now row hb
          cases hjr : jr [row] with
          | error e =>
            simp [track_click, hv, hb, hjr, load_data, jobTimestamps] at hts
            exact hts.trans hrow
          | ok u =>
            simp [track_click, hv, hb, hjr, load_data, jobTimestamps] at hts
            exact hts.trans hrow

/-! ## Claim theorems -/

/-- C1: for a POST body parsing to a JSON object with all five required
fields, `track_click` builds exactly one row whose five fields equal the
payload values plus the server-assigned timestamp, submits exactly one
single-row load job to the warehouse, and on load success returns HTTP 200
with body `{status: "success", message: "Click event recorded
successfully"}`. -/
theorem track_click_valid_request_success (kvs : List (String × Json)) (now : Nat)
    (jr : List Row → Except PyErr Unit) (u t s a d : Json)
    (hu : objLookup kvs "user_id" = some u)
    (ht : objLookup kvs "tab_name" = some t)
    (hs : objLookup kvs "session_id" = some s)
    (ha : objLookup kvs "app_version" = some a)
    (hd : objLookup kvs "device_info" = some d)
    (hok : jr [⟨u, t, now, s, a, d⟩] = .ok ()) :
    track_click (.ok (.obj kvs)) now jr =
      (respSuccess,
       [⟨[⟨u, t, now, s, a, d⟩], tableRef DATASET_ID TABLE_ID, load_job_config⟩]) :=
  track_click_obj_ok kvs now jr u t s a d hu ht hs ha hd hok

/-- Witness for C1 at the spec's sample payload. -/
theorem track_click_valid_request_success_witness :
    objLookup demoKvs "user_id" = some (.str "u1") ∧
    track_click (.ok (.obj demoKvs)) 7 (fun _ => .ok ()) =
      (respSuccess, [⟨[demoRow 7], tableRef DATASET_ID TABLE_ID, load_job_config⟩]) :=
  ⟨rfl, track_click_valid_request_success demoKvs 7 (fun _ => .ok ())
    (.str "u1") (.str "Home") (.str "s1") (.str "1.0") (.str "iPhone14")
    rfl rfl rfl rfl rfl rfl⟩

/-- C2: for a POST body parsing to a JSON object missing at least one of
the five required fields, `track_click` returns HTTP 400 with body
`{error: "Missing required fields"}` and submits no load job at all. -/
theorem track_click_missing_field_400 (kvs : List (String × Json)) (now : Nat)
    (jr : List Row → Except PyErr Unit)
    (hmiss : ∃ f ∈ required_fields, objLookup kvs f = none) :
    track_click (.ok (.obj kvs)) now jr = (respMissingFields, []) := by
  have hfalse : (required_fields.all fun f => (objLookup kvs f).isSome) = false := by
    obtain ⟨f, hf, hnone⟩ := hmiss
    exact List.all_eq_false.mpr ⟨f, hf, by simp [hnone]⟩
  have hv : validate_click_data (.obj kvs) = .ok false := by
    rw [validate_click_data, allFieldsIn_obj, hfalse]
  simp [track_click, hv]

/-- Witness for C2 at the spec's sample invalid payload `{"user_id": "u1"}`. -/
theorem track_click_missing_field_400_witness :
    objLookup [("user_id", Json.str "u1")] "tab_name" = none ∧
    track_click (.ok (.obj [("user_id", Json.str "u1")])) 0 (fun _ => .ok ()) =
      (respMissingFields, []) :=
  ⟨rfl, track_click_missing_field_400 [("user_id", Json.str "u1")] 0 (fun _ => .ok ())
    ⟨"tab_name", by decide, rfl⟩⟩

/-- C4: on a parsed JSON mapping the validator never raises and returns
exactly the presence check of the five required keys: true iff every key
of the fixed set is a key of the mapping.  Values are never inspected (no
type or format checks) and the function is pure. -/
theorem validate_click_data_presence_iff (kvs : List (String × Json)) :
    validate_click_data (.obj kvs) =
      .ok (required_fields.all fun f => (objLookup kvs f).isSome) ∧
    ((required_fields.all fun f => (objLookup kvs f).isSome) = true ↔
      ∀ f ∈ required_fields, (objLookup kvs f).isSome = true) :=
  ⟨allFieldsIn_obj kvs required_fields, List.all_eq_true⟩

/-- C7: every `load_data` call submits exactly one load job, configured
with append-only write disposition and the fixed six-column typed schema,
and its return value is the awaited job's own final outcome (`result()` is
called before returning and a failure is re-raised), so the caller
observes completion or failure, never an in-flight job. -/
theorem load_data_single_append_job (jr : List Row → Except PyErr Unit)
    (rows : List Row) (ds tid : String) :
    (load_data jr rows ds tid).snd = [⟨rows, tableRef ds tid, load_job_config⟩] ∧
    load_job_config.write_disposition = .WRITE_APPEND ∧
    load_job_config.schema =
      [⟨"user_id", "STRING"⟩, ⟨"tab_name", "STRING"⟩, ⟨"click_timestamp", "TIMESTAMP"⟩,
       ⟨"session_id", "STRING"⟩, ⟨"app_version", "STRING"⟩, ⟨"device_info", "STRING"⟩] ∧
    (load_data jr rows ds tid).fst = jr rows :=
  ⟨rfl, rfl, rfl, rfl⟩

/-- C6: the SQL text sent by the read endpoint is identical for every pair
of `user_id` values (so no value can alter the query's structure), and the
single query call carries `user_id` only as the bound typed parameter
`@user_id`. -/
theorem user_id_only_bound_parameter (table : List TableRow)
    (q : Option PyErr) (u1 u2 : String) :
    (get_user_clicks table q u1).snd.map QueryCall.sql =
      (get_user_clicks table q u2).snd.map QueryCall.sql ∧
    (get_user_clicks table q u1).snd =
      [⟨user_clicks_query, [⟨"user_id", "STRING", u1⟩]⟩] := by
  cases q <;> exact ⟨rfl, rfl⟩

/-- C9 counterexample: a JSON array body parses to a non-mapping, yet the
handler answers 400 (Python's membership test on a list returns a boolean
instead of raising), not 500 as the claim states; no load job is
submitted. -/
theorem track_click_array_body_400 :
    (track_click (.ok (.arr [])) 0 (fun _ => .ok ())).fst.status = 400 ∧
    (track_click (.ok (.arr [])) 0 (fun _ => .ok ())).fst.status ≠ 500 ∧
    (track_click (.ok (.arr [])) 0 (fun _ => .ok ())).snd = [] :=
  ⟨rfl, by decide, rfl⟩

/-- C9 (amended): when `get_json` raises (empty or unparsable body), or the
body parses to `null`, a boolean or a number, the membership test raises
`TypeError` and the catch-all handler returns 500 with the generic body,
submitting no load job.  (Array and string bodies are excluded: on those
the membership test returns a boolean, so e.g. an empty-array body is
answered with 400.) -/
theorem track_click_nonmapping_500 (e : PyErr) (b : Bool) (n : Int) (now : Nat)
    (jr : List Row → Except PyErr Unit) :
    track_click (.error e) now jr = (respInternalError, []) ∧
    track_click (.ok .null) now jr = (respInternalError, []) ∧
    track_click (.ok (.bool b)) now jr = (respInternalError, []) ∧
    track_click (.ok (.num n)) now jr = (respInternalError, []) :=
  ⟨rfl, rfl, rfl, rfl⟩

/-- C3: when the warehouse client raises during the write (ingest) or the
query (read-aggregate), the handler returns HTTP 500 with exactly
`{"error": "Internal server error"}`; the response is the same for every
exception, so the exception text never reaches the response body. -/
theorem warehouse_raise_internal_500 (kvs : List (String × Json)) (now : Nat)
    (u t s a d : Json) (e e' : PyErr) (table : List TableRow) (uid : String)
    (hu : objLookup kvs "user_id" = some u)
    (ht : objLookup kvs "tab_name" = some t)
    (hs : objLookup kvs "session_id" = some s)
    (ha : objLookup kvs "app_version" = some a)
    (hd : objLookup kvs "device_info" = some d) :
    (track_click (.ok (.obj kvs)) now (fun _ => .error e)).fst = respInternalError ∧
    track_click (.ok (.obj kvs)) now (fun _ => .error e) =
      track_click (.ok (.obj kvs)) now (fun _ => .error e') ∧
    (get_user_clicks table (some e) uid).fst = respInternalError ∧
    get_user_clicks table (some e) uid = get_user_clicks table (some e') uid := by
  have h1 := track_click_obj_err kvs now (fun _ => .error e) u t s a d e
    hu ht hs ha hd rfl
  have h2 := track_click_obj_err kvs now (fun _ => .error e') u t s a d e'
    hu ht hs ha hd rfl
  exact ⟨by rw [h1], by rw [h1, h2], rfl, rfl⟩

/-- Witness for C3: a failing load job and two differently-worded query
failures at the sample payload. -/
theorem warehouse_raise_internal_500_witness :
    objLookup demoKvs "user_id" = some (.str "u1") ∧
    (track_click (.ok (.obj demoKvs)) 3
      (fun _ => .error (.sdkError "quota exceeded"))).fst = respInternalError ∧
    get_user_clicks [] (some (.sdkError "network down")) "u1" =
      get_user_clicks [] (some (.sdkError "auth failed")) "u1" :=
  ⟨rfl,
   (warehouse_raise_internal_500 demoKvs 3 (.str "u1") (.str "Home") (.str "s1")
     (.str "1.0") (.str "iPhone14") (.sdkError "quota exceeded")
     (.sdkError "quota exceeded") [] "u1" rfl rfl rfl rfl rfl).1,
   (warehouse_raise_internal_500 demoKvs 3 (.str "u1") (.str "Home") (.str "s1")
     (.str "1.0") (.str "iPhone14") (.sdkError "network down")
     (.sdkError "auth failed") [] "u1" rfl rfl rfl rfl rfl).2.2.2⟩

/-- C5: the read-aggregate result is sorted by click count descending
(ties in any order); each returned pair's count is the count of that one
user's rows with that tab name (scoping by the WHERE clause and GROUP BY
aggregation); and on success the endpoint returns 200 with the
`{user_id, click_statistics}` body listing the pairs in that order. -/
theorem user_clicks_sorted_desc (table : List TableRow) (uid : String) :
    List.Sorted geCount (run_user_clicks_query table uid) ∧
    (∀ p ∈ run_user_clicks_query table uid,
      p.snd = ((whereUser table uid).filter (fun r => r.tab_name == p.fst)).length ∧
      p.fst ∈ (whereUser table uid).map (fun r => r.tab_name)) ∧
    get_user_clicks table none uid =
      (⟨200, .obj [("user_id", .str uid),
          ("click_statistics", clickStatsJson (run_user_clicks_query table uid))]⟩,
       [⟨user_clicks_query, [⟨"user_id", "STRING", uid⟩]⟩]) := by
  refine ⟨List.sorted_insertionSort geCount _, ?_, rfl⟩
  intro p hp
  rw [run_user_clicks_query] at hp
  have hp2 : p ∈ groupCounts (whereUser table uid) :=
    (List.mem_insertionSort geCount).mp hp
  rw [groupCounts] at hp2
  obtain ⟨tb, htb, rfl⟩ := List.mem_map.mp hp2
  refine ⟨rfl, ?_⟩
  rw [tabNames] at htb
  exact List.mem_dedup.mp htb

/-- C8: across a sequence of ingest calls handled one after another with a
monotone server clock, the assigned timestamps are monotonically
non-decreasing: every timestamp written by an earlier call is at most
every timestamp written by a later call. -/
theorem seq_timestamps_monotone (clock : Nat → Nat) (reqs : List IngestReq)
    (hclock : ∀ i j : Nat, i ≤ j → clock i ≤ clock j)
    (i j : Fin reqs.length) (hij : i.val ≤ j.val) :
    ∀ ti ∈ jobTimestamps (seqTrack clock reqs i),
      ∀ tj ∈ jobTimestamps (seqTrack clock reqs j), ti ≤ tj := by
  intro ti hti tj htj
  have h1 := track_click_ts (reqs.get i).getJson (clock i.val)
    (reqs.get i).jobResult ti hti
  have h2 := track_click_ts (reqs.get j).getJson (clock j.val)
    (reqs.get j).jobResult tj htj
  rw [h1, h2]
  exact hclock i.val j.val hij

/-- Witness for C8: two sequential successful ingest calls under the
identity clock; the first call's timestamp 0 is at most the second's 1. -/
theorem seq_timestamps_monotone_witness :
    (0 : Nat) ∈ jobTimestamps (seqTrack (fun n => n) demoReqs ⟨0, by decide⟩) ∧
    (1 : Nat) ∈ jobTimestamps (seqTrack (fun n => n) demoReqs ⟨1, by decide⟩) ∧
    (0 : Nat) ≤ 1 := by
  have hm0 : (0 : Nat) ∈ jobTimestamps (seqTrack (fun n => n) demoReqs ⟨0, by decide⟩) := by
    decide
  have hm1 : (1 : Nat) ∈ jobTimestamps (seqTrack (fun n => n) demoReqs ⟨1, by decide⟩) := by
    decide
  exact ⟨hm0, hm1,
    seq_timestamps_monotone (fun n => n) demoReqs (fun _ _ h => h)
      ⟨0, by decide⟩ ⟨1, by decide⟩ (by decide) 0 hm0 1 hm1⟩

/-- C10: the ingest outcome (response and submitted rows) depends only on
the five required fields and the clock: two object payloads agreeing on
those five keys are handled identically, so extra keys are ignored and
never persisted. -/
theorem track_click_depends_only_on_required (kv1 kv2 : List (String × Json))
    (now : Nat) (jr : List Row → Except PyErr Unit) (u t s a d : Json)
    (hu1 : objLookup kv1 "user_id" = some u)
    (ht1 : objLookup kv1 "tab_name" = some t)
    (hs1 : objLookup kv1 "session_id" = some s)
    (ha1 : objLookup kv1 "app_version" = some a)
    (hd1 : objLookup kv1 "device_info" = some d)
    (hu2 : objLookup kv2 "user_id" = some u)
    (ht2 : objLookup kv2 "tab_name" = some t)
    (hs2 : objLookup kv2 "session_id" = some s)
    (ha2 : objLookup kv2 "app_version" = some a)
    (hd2 : objLookup kv2 "device_info" = some d) :
    track_click (.ok (.obj kv1)) now jr = track_click (.ok (.obj kv2)) now jr := by
  cases hjr : jr [⟨u, t, now, s, a, d⟩] with
  | ok v =>
    cases v
    rw [track_click_obj_ok kv1 now jr u t s a d hu1 ht1 hs1 ha1 hd1 hjr,
        track_click_obj_ok kv2 now jr u t s a d hu2 ht2 hs2 ha2 hd2 hjr]
  | error e =>
    rw [track_click_obj_err kv1 now jr u t s a d e hu1 ht1 hs1 ha1 hd1 hjr,
        track_click_obj_err kv2 now jr u t s a d e hu2 ht2 hs2 ha2 hd2 hjr]

/-- Witness for C10: the sample payload with and without an extra key is
handled identically. -/
theorem track_click_depends_only_on_required_witness :
    objLookup demoKvsExtra "user_id" = some (.str "u1") ∧
    track_click (.ok (.obj demoKvsExtra)) 5 (fun _ => .ok ()) =
      track_click (.ok (.obj demoKvs)) 5 (fun _ => .ok ()) :=
  ⟨rfl, track_click_depends_only_on_required demoKvsExtra demoKvs 5 (fun _ => .ok ())
    (.str "u1") (.str "Home") (.str "s1") (.str "1.0") (.str "iPhone14")
    rfl rfl rfl rfl rfl rfl rfl rfl rfl rfl⟩
